import Mathlib

/-!
# Verification of the VideoTitler rename / scan / pipeline core

Shallow embedding of the claim-relevant parts of the `expliyh/VideoTitler`
repository (`videotitler/rename.py`, `videotitler/gui.py`,
`videotitler/baidu_ocr.py`, `videotitler/deepseek.py`, `videotitler/video.py`,
`videotitler/config.py`) together with theorems settling the frozen claims.

Modelling conventions:
* Python `pathlib.Path` values are modelled by `PyPath` (a parent directory
  string plus a final-component name); `Path.stem` / `Path.suffix` follow the
  pathlib rules on the final component.
* Python strings are Lean `String`s; character-level operations work on
  `String.data` (a `List Char` of Unicode code points, matching Python's
  code-point view of `str`).
* Whitespace classes (`str.strip`, regex `\s`) are modelled by the ASCII
  whitespace characters; every input appearing in the claims is ASCII-space
  only, so this is exact on all inputs considered.
* The filesystem is an explicit value: a list of existing `PyPath`s.
* Wall-clock times (`time.time()` floats) and sleep durations are modelled
  as integers: every operation the code performs on them in the claims
  (comparison, addition, `max`, exact powers of two) is integer-valued.
-/

/-- ASCII whitespace, modelling Python's whitespace class for `str.strip()`
and the regex class `\s` (exact for the ASCII inputs of the claims). -/
def isPyWhitespace (c : Char) : Bool :=
  c = ' ' || c = '\t' || c = '\n' || c = '\x0d' || c = '\x0b' || c = '\x0c'

/-- Python `s.strip(chars)` / `s.lstrip` + `s.rstrip`: drop the maximal runs of
characters satisfying `p` from both ends. -/
def pyStrip (p : Char → Bool) (l : List Char) : List Char :=
  ((l.dropWhile p).reverse.dropWhile p).reverse

/-- Python `s.rstrip()` on a character list. -/
def pyRstrip (p : Char → Bool) (l : List Char) : List Char :=
  (l.reverse.dropWhile p).reverse

/-- Code-point lowercasing, modelling Python `str.lower()` (exact on the ASCII
inputs of the claims). -/
def pyLower (l : List Char) : List Char :=
  l.map Char.toLower

/-- Python string `<`: lexicographic comparison of code points. -/
def pyStrLt : List Char → List Char → Bool
  | [], [] => false
  | [], _ :: _ => true
  | _ :: _, [] => false
  | a :: as, b :: bs =>
    if a.toNat < b.toNat then true
    else if b.toNat < a.toNat then false
    else pyStrLt as bs

/-- `re.sub(r"\s+", " ", s)`: replace each maximal whitespace run by a single
space.  The `sawWs` flag records whether the previous character was part of a
whitespace run (structural recursion so that the kernel can evaluate it). -/
def collapseWsAux : List Char → Bool → List Char
  | [], _ => []
  | c :: cs, sawWs =>
    if isPyWhitespace c then
      if sawWs then collapseWsAux cs true else ' ' :: collapseWsAux cs true
    else c :: collapseWsAux cs false

def collapseWs (l : List Char) : List Char :=
  collapseWsAux l false

/-- The character set actually matched by
`_WINDOWS_INVALID_CHARS_RE = re.compile(r"[<>:\"/\\\\|?*\\x00-\\x1F]")`
in `videotitler/rename.py`.

The pattern is a *raw* Python string, so `\\x00` is the two regex escapes
`\\` and the literals `x`, `0`, `0`; the regex character class therefore
parses as the literals `< >: " / \ | ? * x 0 1 F` together with the range
`0`–`\` (code points 0x30–0x5C: the digits, `:;<=>?@`, the uppercase
letters, `[` and `\`).  It does *not* contain the control characters
U+0000–U+001F. -/
def isWindowsInvalidChar (c : Char) : Bool :=
  c = '<' || c = '>' || c = ':' || c = '"' || c = '/' || c = '\\' ||
  c = '|' || c = '?' || c = '*' || c = 'x' || c = '0' || c = '1' || c = 'F' ||
  (0x30 ≤ c.toNat && c.toNat ≤ 0x5C)

/-- `videotitler/rename.py` — `sanitize_filename_component`:
replace U+200B by a space, strip, collapse whitespace runs, replace every
character matched by `_WINDOWS_INVALID_CHARS_RE` by a space, strip spaces and
dots, strip whitespace, substitute the fallback if empty, truncate to
`max_len` and right-strip. -/
def sanitize_filename_component (text : String)
    (fallback : String := "标题") (max_len : Nat := 80) : String :=
  let l0 := text.data.map fun c => if c = '​' then ' ' else c
  let l1 := pyStrip isPyWhitespace l0
  let l2 := collapseWs l1
  let l3 := l2.map fun c => if isWindowsInvalidChar c then ' ' else c
  let l4 := pyStrip (fun c => c = ' ' || c = '.') l3
  let l5 := pyStrip isPyWhitespace l4
  let l6 := if l5.isEmpty then fallback.data else l5
  let l7 := if l6.length > max_len then pyRstrip isPyWhitespace (l6.take max_len) else l6
  l7.asString

/-- A `pathlib.Path`, reduced to the parts the code uses: the parent directory
(as a string) and the final component `name`. -/
structure PyPath where
  parent : String
  name : String
deriving DecidableEq, Repr

/-- Index (into `name.data`) of the last `'.'`, if any. -/
def lastDotIdx? (l : List Char) : Option Nat :=
  match l.reverse.findIdx? (· = '.') with
  | some j => some (l.length - 1 - j)
  | none => none

/-- `Path.suffix`: the extension from the last dot, empty when the last dot is
the first or last character of the name (pathlib's rule). -/
def PyPath.suffix (p : PyPath) : String :=
  match lastDotIdx? p.name.data with
  | some i => if 0 < i ∧ i + 1 < p.name.data.length then (p.name.data.drop i).asString else ""
  | none => ""

/-- `Path.stem`: the final component without its `suffix`. -/
def PyPath.stem (p : PyPath) : String :=
  match lastDotIdx? p.name.data with
  | some i => if 0 < i ∧ i + 1 < p.name.data.length then (p.name.data.take i).asString else p.name
  | none => p.name

/-- `Path.with_name` / `parent / name`: same parent, new final component. -/
def PyPath.withName (p : PyPath) (n : String) : PyPath :=
  ⟨p.parent, n⟩

/-- Python `str(i)` for an `int`. -/
def pyIntStr (i : Int) : String :=
  if i < 0 then "-" ++ Nat.repr i.natAbs else Nat.repr i.toNat

/-- Python `str.zfill(width)`: left-pad with `'0'` to `width`, keeping a
leading sign in front of the padding. -/
def pyZfill (s : String) (width : Nat) : String :=
  if s.data.length ≥ width then s
  else
    match s.data with
    | c :: rest =>
      if c = '+' || c = '-' then
        (c :: (List.replicate (width - s.data.length) '0' ++ rest)).asString
      else (List.replicate (width - s.data.length) '0' ++ s.data).asString
    | [] => (List.replicate width '0').asString

/-- `videotitler/rename.py` — `build_target_path`. -/
def build_target_path (src_path : PyPath) (index : Int) (index_padding : Int)
    (title : String) : PyPath :=
  let safe_title := sanitize_filename_component title
  let pfx := pyZfill (pyIntStr index) (max 1 index_padding).toNat
  src_path.withName (pfx ++ "-" ++ safe_title ++ src_path.suffix)

/-! ## Natural-order scanner (`videotitler/gui.py`, `_scan_videos`) -/

/-- Recognised video extensions (`VIDEO_EXTS` in `gui.py`). -/
def VIDEO_EXTS : List String :=
  [".mp4", ".mov", ".mkv", ".avi", ".webm", ".m4v"]

/-- Scanner state for `buggySplit`: outside any separator, just after a
pending backslash, or inside a `\dd…d` separator (accumulated in reverse). -/
inductive SplitSt where
  | normal
  | afterBs
  | inMatch (matchRev : List Char)

/-- `re.split(r"(\\d+)", name)` from `natural_key`.

The pattern is a *raw* string, so the regex source is `(\\d+)`: a literal
backslash followed by one or more letters `d` — not a digit run.  This
splitter keeps the captured separators, exactly like `re.split` with one
group.  `pieceRev` is the current non-separator piece in reverse; each step
consumes exactly one character, so the recursion is structural. -/
def buggySplitAux : List Char → SplitSt → List Char → List (List Char)
  | [], .normal, pieceRev => [pieceRev.reverse]
  | [], .afterBs, pieceRev => [('\\' :: pieceRev).reverse]
  | [], .inMatch matchRev, pieceRev => [pieceRev.reverse, matchRev.reverse, []]
  | c :: rest, .normal, pieceRev =>
    if c = '\\' then buggySplitAux rest .afterBs pieceRev
    else buggySplitAux rest .normal (c :: pieceRev)
  | c :: rest, .afterBs, pieceRev =>
    if c = 'd' then buggySplitAux rest (.inMatch ['d', '\\']) pieceRev
    else if c = '\\' then buggySplitAux rest .afterBs ('\\' :: pieceRev)
    else buggySplitAux rest .normal (c :: '\\' :: pieceRev)
  | c :: rest, .inMatch matchRev, pieceRev =>
    if c = 'd' then buggySplitAux rest (.inMatch (c :: matchRev)) pieceRev
    else if c = '\\' then pieceRev.reverse :: matchRev.reverse :: buggySplitAux rest .afterBs []
    else pieceRev.reverse :: matchRev.reverse :: buggySplitAux rest .normal [c]

def buggySplit (name : String) : List (List Char) :=
  buggySplitAux name.data .normal []

/-- One component of a `natural_key` value: Python `int(part)` for digit-only
parts, `part.lower()` otherwise. -/
inductive KeyPart where
  | num (n : Nat)
  | str (s : List Char)
deriving DecidableEq, Repr

/-- Python `part.isdigit()` (ASCII digits; exact for the filenames of the
claims). -/
def pyIsdigit (l : List Char) : Bool :=
  !l.isEmpty && l.all Char.isDigit

/-- Python `int(part)` on a digit-only string. -/
def digitsToNat (l : List Char) : Nat :=
  l.foldl (fun a c => 10 * a + (c.toNat - 48)) 0

/-- `natural_key` from `_scan_videos`: split with the (buggy) separator regex
and map each part to a numeric or lowercased-string key component. -/
def natural_key (name : String) : List KeyPart :=
  (buggySplit name).map fun part =>
    if pyIsdigit part then .num (digitsToNat part) else .str (pyLower part)

/-- `<` on key components.  Comparing a number with a string raises
`TypeError` in Python; that case never arises for filenames without a
literal `\d` substring (the buggy separator never matches, so every key is a
single `.str`), and is arbitrarily `false` here. -/
def keyPartLt : KeyPart → KeyPart → Bool
  | .num m, .num n => m < n
  | .str s, .str t => pyStrLt s t
  | .num _, .str _ => false
  | .str _, .num _ => false

/-- Python list `<` on keys: lexicographic, shorter prefix first. -/
def keyLt : List KeyPart → List KeyPart → Bool
  | [], [] => false
  | [], _ :: _ => true
  | _ :: _, [] => false
  | a :: as, b :: bs =>
    if keyPartLt a b then true
    else if keyPartLt b a then false
    else keyLt as bs

/-- Stable insertion of `x` in front of the first element *strictly greater*
than it (models the stability of Python's sort). -/
def insertSorted (lt : α → α → Bool) (x : α) : List α → List α
  | [] => [x]
  | y :: ys => if lt y x then y :: insertSorted lt x ys else x :: y :: ys

/-- Stable sort by a boolean `<` comparator (Python `list.sort`). -/
def stableSort (lt : α → α → Bool) : List α → List α
  | [] => []
  | x :: xs => insertSorted lt x (stableSort lt xs)

/-- `_scan_videos`, with the directory walk replaced by its result: filter the
candidate files by extension and sort by `natural_key` of the name. -/
def scan_videos (candidates : List PyPath) : List PyPath :=
  let videos := candidates.filter fun p => VIDEO_EXTS.contains (pyLower p.suffix.data).asString
  stableSort (fun p q => keyLt (natural_key p.name) (natural_key q.name)) videos

/-! ## Collision resolution (`videotitler/rename.py`, `pick_non_conflicting_path`)

The Python loop `while True: candidate = parent / f"{stem}_{counter}{suffix}"…`
is modelled by a bounded search whose fuel `|fs| + 1` is proven sufficient:
the candidate names are pairwise distinct (decimal numerals are injective), so
among `|fs| + 1` candidates at least one is not in the directory listing. -/

/-- Decimal decoding of a character list, used to invert `Nat.toDigitsCore`. -/
def decodeFrom (acc : Nat) : List Char → Nat
  | [] => acc
  | c :: cs => decodeFrom (10 * acc + (c.toNat - 48)) cs

/-- The candidate `parent / f"{stem}_{counter}{suffix}"` built inside the
collision loop. -/
def conflictCandidate (target : PyPath) (counter : Nat) : PyPath :=
  ⟨target.parent, target.stem ++ "_" ++ Nat.repr counter ++ target.suffix⟩

/-- The `while True` search, bounded by explicit fuel.  With fuel exhausted it
returns the current candidate (this branch is unreachable for the fuel used by
`pick_non_conflicting_path`). -/
def conflictSearch (fs : List PyPath) (target : PyPath) : Nat → Nat → PyPath
  | 0, counter => conflictCandidate target counter
  | fuel + 1, counter =>
    let candidate := conflictCandidate target counter
    if candidate ∈ fs then conflictSearch fs target fuel (counter + 1) else candidate

/-- `videotitler/rename.py` — `pick_non_conflicting_path`.  `fs` is the list
of paths existing in the filesystem at call time (`Path.exists`). -/
def pick_non_conflicting_path (fs : List PyPath) (target_path : PyPath)
    (ignore_path : Option PyPath := none) : PyPath :=
  if ignore_path = some target_path then target_path
  else if target_path ∈ fs then conflictSearch fs target_path (fs.length + 1) 2
  else target_path

/-! ## HTTP retry loop (`baidu_ocr.py` token/recognize, `deepseek.py`)

The three request loops share one shape:
`for attempt in range(retries): try … break; except RequestException: sleep
and retry or raise; except ValueError: raise; else: raise`.  Wall-clock sleep
durations (`time.sleep(1.0 * (2 ** attempt))`, exact powers of two) are
returned as a list of integers.  A raised domain error is a message plus the
`from exc` cause. -/

/-- A raised domain error (`BaiduOcrError` / `DeepSeekError`): message and the
`raise … from exc` cause. -/
structure DomainError where
  message : String
  cause : Option String := none
deriving DecidableEq

/-- Outcome of one `requests.post` + `raise_for_status` + `.json()` attempt:
a decoded payload, a `requests.RequestException` (network/transport error,
carrying its string form), or a `ValueError` (non-JSON body). -/
inductive AttemptResult (α : Type) where
  | ok (payload : α)
  | transient (exc : String)
  | badJson (exc : String)

/-- The retry loop body, structurally recursive on the remaining attempts
(`fuel = retries - attempt`).  Returns the loop result together with the list
of back-off sleeps performed.  `wrapT` builds the domain error raised when the
final attempt fails transiently, `wrapJ` the one raised on a non-JSON body,
`elseE` the `for…else` error (reachable only when `retries = 0`). -/
def retryAux (wrapT wrapJ : String → DomainError) (elseE : Option String → DomainError)
    (outcomes : Nat → AttemptResult α) (retries : Nat) :
    Nat → Nat → Option String → Except DomainError α × List Int
  | _, 0, lastExc => (.error (elseE lastExc), [])
  | attempt, fuel + 1, _ =>
    match outcomes attempt with
    | .ok payload => (.ok payload, [])
    | .badJson exc => (.error (wrapJ exc), [])
    | .transient exc =>
      if attempt + 1 ≥ retries then (.error (wrapT exc), [])
      else
        let rest := retryAux wrapT wrapJ elseE outcomes retries (attempt + 1) fuel (some exc)
        (rest.1, 1 * 2 ^ attempt :: rest.2)

/-- The whole `for attempt in range(retries)` loop. -/
def retryLoop (wrapT wrapJ : String → DomainError) (elseE : Option String → DomainError)
    (outcomes : Nat → AttemptResult α) (retries : Nat) : Except DomainError α × List Int :=
  retryAux wrapT wrapJ elseE outcomes retries 0 retries none

/-- The back-off schedule: `1.0 * 2 ** attempt` seconds for the attempts that
sleep. -/
def backoffSleeps (m : Nat) : List Int :=
  (List.range m).map fun i => 1 * 2 ^ i

/-- `BaiduOcrClient._get_access_token`, transient-failure wrapper. -/
def baiduTokenTransient (exc : String) : DomainError :=
  ⟨"获取 access_token 失败（网络超时/连接）：" ++ exc, some exc⟩

/-- `BaiduOcrClient._get_access_token`, non-JSON wrapper. -/
def baiduTokenBadJson (exc : String) : DomainError :=
  ⟨"获取 access_token 失败：返回不是 JSON。", some exc⟩

/-- `BaiduOcrClient.recognize`, transient-failure wrapper. -/
def baiduOcrTransient (exc : String) : DomainError :=
  ⟨"OCR 请求失败（网络超时/连接）：" ++ exc, some exc⟩

/-- `deepseek.extract_title_sentence`, transient-failure wrapper. -/
def deepseekTransient (exc : String) : DomainError :=
  ⟨"DeepSeek 请求失败（网络超时/连接）：" ++ exc, some exc⟩

/-- `deepseek.extract_title_sentence`, non-JSON wrapper. -/
def deepseekBadJson (exc : String) : DomainError :=
  ⟨"DeepSeek 返回不是 JSON。", some exc⟩

/-! ## OCR token cache (`baidu_ocr.py`, `BaiduOcrClient._get_access_token`)

`time.time()` values are modelled as integer epoch seconds (every comparison
and addition the code performs on them is order/`+`/`max`, so nothing is lost
on the claims). -/

/-- `_TokenCache`. -/
structure TokenCache where
  token : String := ""
  expires_at_epoch : Int := 0
deriving DecidableEq

/-- Result of the (retried) token-issuance POST, abstracted to its outcome:
the decoded payload fields `access_token` / `expires_in`, or a final failure
with the raised domain error. -/
inductive TokenFetchOutcome where
  | payload (access_token : String) (expires_in : Int)
  | failed (e : DomainError)

/-- `BaiduOcrClient._get_access_token`: returns the token and the updated
cache, plus the number of token-issuance requests performed (`0` when the
cached token is reused, `1` otherwise). -/
def get_access_token (cache : TokenCache) (now : Int) (api_key secret_key : String)
    (fetch : TokenFetchOutcome) : Except DomainError (String × TokenCache) × Nat :=
  if cache.token ≠ "" ∧ now < cache.expires_at_epoch then
    (.ok (cache.token, cache), 0)
  else if api_key = "" ∨ secret_key = "" then
    (.error ⟨"缺少百度 OCR 的 API Key / Secret Key。", none⟩, 0)
  else
    match fetch with
    | .failed e => (.error e, 1)
    | .payload token expires_in =>
      if token = "" then
        (.error ⟨"获取 access_token 失败：<payload>", none⟩, 1)
      else
        (.ok (token, ⟨token, now + max 0 (expires_in - 60)⟩), 1)

/-- Observable service calls made by `recognize`. -/
inductive ServiceCall where
  | tokenIssuance
  | ocrRequest
deriving DecidableEq

/-- The call sequence of `BaiduOcrClient.recognize`: first
`_get_access_token` (issuing a token request or not), then — only if that
succeeded — the OCR POST itself. -/
def recognizeCalls (cache : TokenCache) (now : Int) (api_key secret_key : String)
    (fetch : TokenFetchOutcome) : List ServiceCall :=
  let r := get_access_token cache now api_key secret_key fetch
  List.replicate r.2 .tokenIssuance ++
    (match r.1 with
     | .ok _ => [.ocrRequest]
     | .error _ => [])

/-! ## Frame extraction (`videotitler/video.py`, `extract_frame_as_png_bytes`) -/

/-- Outcome of one `subprocess.run` invocation of ffmpeg: completed with a
return code, captured stdout bytes and stderr text, or `TimeoutExpired`. -/
inductive RunOutcome where
  | completed (returncode : Int) (stdout : List Nat) (stderr : String)
  | timedOut

/-- `run_extract`: raise on timeout, raise (with the stripped stderr or
`未知错误`) on non-zero exit, otherwise return the stdout bytes. -/
def run_extract (o : RunOutcome) : Except DomainError (List Nat) :=
  match o with
  | .timedOut => .error ⟨"ffmpeg 抽帧超时。", some "TimeoutExpired"⟩
  | .completed rc out err =>
    if rc ≠ 0 then
      let msg := (pyStrip isPyWhitespace err.data).asString
      .error ⟨"ffmpeg 抽帧失败：" ++ (if msg = "" then "未知错误" else msg), none⟩
    else .ok out

/-- The primary ffmpeg argument list (select the 0-based frame). -/
def primaryArgs (ffmpeg video_path : String) (frame_index : Int) : List String :=
  [ffmpeg, "-hide_banner", "-loglevel", "error", "-nostdin", "-i", video_path,
   "-map", "0:v:0", "-vf", "select=eq(n\\," ++ pyIntStr frame_index ++ ")",
   "-frames:v", "1", "-f", "image2pipe", "-vcodec", "png", "pipe:1"]

/-- The fallback ffmpeg argument list: seek to 0.1s before end-of-stream and
grab one frame. -/
def fallbackArgs (ffmpeg video_path : String) : List String :=
  [ffmpeg, "-hide_banner", "-loglevel", "error", "-nostdin", "-sseof", "-0.1",
   "-i", video_path, "-map", "0:v:0",
   "-frames:v", "1", "-f", "image2pipe", "-vcodec", "png", "pipe:1"]

/-- `extract_frame_as_png_bytes`, with the two subprocess invocations replaced
by their outcomes and PNG decoding by the predicate `decodes`.  Returns the
result together with the number of ffmpeg invocations actually performed. -/
def extract_frame_as_png_bytes (video_path : String) (frame_number_1based : Int)
    (ffmpeg : Option String) (primary fallback : RunOutcome)
    (decodes : List Nat → Bool) : Except DomainError (List Nat) × Nat :=
  if frame_number_1based < 1 then
    (.error ⟨"帧序号必须是 >= 1 的整数。", none⟩, 0)
  else
    match ffmpeg with
    | none => (.error ⟨"未找到 ffmpeg：请先安装 ffmpeg 并加入 PATH。", none⟩, 0)
    | some _ =>
      match run_extract primary with
      | .error e => (.error e, 1)
      | .ok png_bytes =>
        let decodeStep : List Nat → Except DomainError (List Nat) := fun bs =>
          if decodes bs then .ok bs else .error ⟨"PNG 解码失败（ffmpeg 输出异常）。", none⟩
        if png_bytes.isEmpty then
          match run_extract fallback with
          | .error e => (.error e, 2)
          | .ok bytes2 =>
            if bytes2.isEmpty then
              (.error ⟨"读取帧失败：" ++ video_path ++ " (frame=" ++
                pyIntStr frame_number_1based ++ ")", none⟩, 2)
            else (decodeStep bytes2, 2)
        else (decodeStep png_bytes, 1)

/-! ## Title post-processing (`videotitler/deepseek.py`) -/

/-- Python line-break characters recognised by `str.splitlines` (the common
ones; the claims' inputs contain none). -/
def isPyLineBreak (c : Char) : Bool :=
  c = '\n' || c = '\x0d' || c = '\x0b' || c = '\x0c' ||
  c = '\x1c' || c = '\x1d' || c = '\x1e' || c = '\x85' || c = ' ' || c = ' '

/-- `str.splitlines`: split at line breaks (treating `\r\n` as one break),
terminators removed, no trailing empty line. -/
def pySplitlinesAux : List Char → List Char → List (List Char)
  | [], curRev => if curRev.isEmpty then [] else [curRev.reverse]
  | '\x0d' :: '\n' :: rest, curRev => curRev.reverse :: pySplitlinesAux rest []
  | c :: rest, curRev =>
    if isPyLineBreak c then curRev.reverse :: pySplitlinesAux rest []
    else pySplitlinesAux rest (c :: curRev)

def pySplitlines (s : String) : List (List Char) :=
  pySplitlinesAux s.data []

/-- `_first_non_empty_line`: the first line whose `strip()` is non-empty
(stripped), else the empty string. -/
def firstNonEmptyLineAux : List (List Char) → String
  | [] => ""
  | l :: ls =>
    let stripped := pyStrip isPyWhitespace l
    if stripped.isEmpty then firstNonEmptyLineAux ls else stripped.asString

def first_non_empty_line (text : String) : String :=
  firstNonEmptyLineAux (pySplitlines text)

/-- The character class `[\"“”\'\s]` of the quote-stripping regex. -/
def isQuoteOrSpace (c : Char) : Bool :=
  c = '"' || c = '“' || c = '”' || c = Char.ofNat 39 || isPyWhitespace c

/-- The separator class `[:：\s]` of the label-stripping regex. -/
def isLabelSep (c : Char) : Bool :=
  c = ':' || c = '：' || isPyWhitespace c

/-- `re.sub(r"^(标题|title)[:：\s]+", "", title, flags=re.IGNORECASE)`:
remove a leading `标题` or case-insensitive `title` label, but only when at
least one `:`/`：`/whitespace separator follows; the separator run is removed
greedily. -/
def stripTitleLabel (l : List Char) : List Char :=
  let afterLabel : Option (List Char) :=
    match l with
    | '标' :: '题' :: rest => some rest
    | a :: b :: c :: d :: e :: rest =>
      if a.toLower = 't' ∧ b.toLower = 'i' ∧ c.toLower = 't' ∧ d.toLower = 'l'
          ∧ e.toLower = 'e' then some rest
      else none
    | _ => none
  match afterLabel with
  | some rest =>
    match rest with
    | c :: _ => if isLabelSep c then rest.dropWhile isLabelSep else l
    | [] => l
  | none => l

/-- The post-processing tail of `extract_title_sentence` (lines 97–102):
first non-empty line, strip surrounding quote characters and whitespace,
strip a leading title label, strip again. -/
def deepseek_postprocess (content : String) : String :=
  let title0 := first_non_empty_line content
  let title1 := pyStrip isPyWhitespace (pyStrip isQuoteOrSpace title0.data)
  let title2 := pyStrip isPyWhitespace (stripTitleLabel title1)
  title2.asString

/-! ## Configuration persistence (`videotitler/config.py`) -/

/-- `AppConfig` (all fields, with the dataclass defaults). -/
structure AppConfig where
  input_dir : String := ""
  include_subdirs : Bool := false
  frame_number_1based : Int := 1
  start_index : Int := 1
  index_padding : Int := 3
  dry_run : Bool := false
  baidu_api_key : String := ""
  baidu_secret_key : String := ""
  baidu_ocr_mode : String := "accurate_basic"
  deepseek_api_key : String := ""
  deepseek_base_url : String := "https://api.deepseek.com/v1"
  deepseek_model : String := "deepseek-chat"
  deepseek_system_prompt : String := "<default system prompt>"
  deepseek_user_prompt_template : String := "<default user prompt template>"
  save_keys_locally : Bool := false
  recent_dirs : List String := []
deriving DecidableEq

/-- `save_config`: `data = asdict(config)` (a copy), blank the three secret
fields unless `save_keys_locally`, and write `data`.  Returns the written
record and the in-memory config after the call (the function never mutates
`config`; only the copied dict is modified). -/
def save_config (config : AppConfig) : AppConfig × AppConfig :=
  let data := config
  let data :=
    if ¬config.save_keys_locally then
      { data with baidu_api_key := "", baidu_secret_key := "", deepseek_api_key := "" }
    else data
  (data, config)

/-! ## Batch worker events (`videotitler/gui.py`, `_run_worker`) -/

/-- Events the worker puts on the UI queue. -/
inductive WorkerEvent where
  | statusEv (path : PyPath) (status : String)
  | previewEv (path : PyPath)
  | ocrEv (path : PyPath) (text : String)
  | titleEv (path : PyPath) (title : String) (new_name : String)
  | renamedEv (old_path new_path : PyPath)
  | progressEv (count : Nat)
deriving DecidableEq

/-- The event trace of one successful `_run_worker` iteration (gui.py lines
700–751), abstracting the stage results (`ocr_text`, `title`, computed
`target`) and returning whether `old_path.rename(target)` was performed. -/
def run_worker_item (dry_run : Bool) (row_path : PyPath) (ocr_text title : String)
    (target : PyPath) (progress_count : Nat) : List WorkerEvent × Bool :=
  let events :=
    [.statusEv row_path "读取帧…", .previewEv row_path,
     .statusEv row_path "OCR…", .ocrEv row_path ocr_text,
     .statusEv row_path "DeepSeek…", .titleEv row_path title target.name] ++
    (if ¬dry_run then [.renamedEv row_path target] else []) ++
    [.statusEv (if ¬dry_run then target else row_path) "完成",
     .progressEv progress_count]
  (events, !dry_run)

/-- The per-item status set by the single-item `_rename_selected` handler when
dry-run is enabled (gui.py lines 497–501) — the label the spec calls
"previewed". -/
def renameSelectedDryRunStatus : String := "预览"

/-- Status payloads of an event list, in order. -/
def statusValues (events : List WorkerEvent) : List String :=
  events.filterMap fun e =>
    match e with
    | .statusEv _ s => some s
    | _ => none

/-- Title events (path, title, new name) of an event list, in order. -/
def titleValues (events : List WorkerEvent) : List (PyPath × String × String) :=
  events.filterMap fun e =>
    match e with
    | .titleEv p t n => some (p, t, n)
    | _ => none

/-- Rename events of an event list, in order. -/
def renamedValues (events : List WorkerEvent) : List (PyPath × PyPath) :=
  events.filterMap fun e =>
    match e with
    | .renamedEv o n => some (o, n)
    | _ => none

/-! ## Helper lemmas -/

theorem decodeFrom_cons (acc : Nat) (c : Char) (cs : List Char) :
    decodeFrom acc (c :: cs) = decodeFrom (10 * acc + (c.toNat - 48)) cs := rfl

theorem toDigitsCore_succ (b fuel n : Nat) (ds : List Char) :
    Nat.toDigitsCore b (fuel + 1) n ds =
      if n / b = 0 then Nat.digitChar (n % b) :: ds
      else Nat.toDigitsCore b fuel (n / b) (Nat.digitChar (n % b) :: ds) := rfl

theorem digitChar_toNat : ∀ m : Nat, m < 10 → (Nat.digitChar m).toNat = 48 + m := by
  decide

theorem decodeFrom_toDigitsCore :
    ∀ (fuel n : Nat) (ds : List Char), n < fuel →
      decodeFrom 0 (Nat.toDigitsCore 10 fuel n ds) = decodeFrom n ds := by
  intro fuel
  induction fuel with
  | zero => intro n ds h; omega
  | succ fuel ih =>
    intro n ds h
    have hm : (Nat.digitChar (n % 10)).toNat = 48 + n % 10 :=
      digitChar_toNat _ (Nat.mod_lt _ (by omega))
    rw [toDigitsCore_succ]
    by_cases h10 : n / 10 = 0
    · rw [if_pos h10, decodeFrom_cons, hm]
      have he : 10 * 0 + (48 + n % 10 - 48) = n := by omega
      rw [he]
    · rw [if_neg h10, ih (n / 10) _ (by omega), decodeFrom_cons, hm]
      have he : 10 * (n / 10) + (48 + n % 10 - 48) = n := by omega
      rw [he]

theorem natRepr_injective : Function.Injective Nat.repr := by
  intro m n h
  have hd : Nat.toDigits 10 m = Nat.toDigits 10 n := by
    have := congrArg String.data h
    simpa [Nat.repr, List.asString] using this
  have e1 : decodeFrom 0 (Nat.toDigits 10 m) = m :=
    decodeFrom_toDigitsCore (m + 1) m [] (Nat.lt_succ_self m)
  have e2 : decodeFrom 0 (Nat.toDigits 10 n) = n :=
    decodeFrom_toDigitsCore (n + 1) n [] (Nat.lt_succ_self n)
  calc m = decodeFrom 0 (Nat.toDigits 10 m) := e1.symm
    _ = decodeFrom 0 (Nat.toDigits 10 n) := by rw [hd]
    _ = n := e2

theorem conflictCandidate_injective (target : PyPath) :
    Function.Injective (conflictCandidate target) := by
  intro j k h
  have hname := congrArg (fun p : PyPath => p.name.data) h
  simp only [conflictCandidate, String.data_append] at hname
  have h1 : (Nat.repr j).data ++ target.suffix.data
      = (Nat.repr k).data ++ target.suffix.data := by
    have h0 : (target.stem.data ++ '_'.toString.data) ++
        ((Nat.repr j).data ++ target.suffix.data) =
        (target.stem.data ++ '_'.toString.data) ++
        ((Nat.repr k).data ++ target.suffix.data) := by
      simpa [List.append_assoc] using hname
    exact List.append_cancel_left h0
  have h2 : (Nat.repr j).data = (Nat.repr k).data :=
    List.append_cancel_right h1
  exact natRepr_injective (String.ext h2)

theorem conflictSearch_eq_of_least (fs : List PyPath) (target : PyPath) :
    ∀ (fuel counter k : Nat), counter ≤ k → k ≤ counter + fuel →
      conflictCandidate target k ∉ fs →
      (∀ j, counter ≤ j → j < k → conflictCandidate target j ∈ fs) →
      conflictSearch fs target fuel counter = conflictCandidate target k := by
  intro fuel
  induction fuel with
  | zero =>
    intro counter k h1 h2 _ _
    have : k = counter := by omega
    simp [conflictSearch, this]
  | succ fuel ih =>
    intro counter k h1 h2 hfree hbusy
    by_cases hc : conflictCandidate target counter ∈ fs
    · have hne : counter ≠ k := fun he => hfree (he ▸ hc)
      simp only [conflictSearch, if_pos hc]
      exact ih (counter + 1) k (by omega) (by omega) hfree
        (fun j hj1 hj2 => hbusy j (by omega) hj2)
    · have hk : k = counter := by
        by_contra hne
        exact hc (hbusy counter le_rfl (by omega))
      simp [conflictSearch, hc, hk]

/-- Pigeonhole: a directory listing is finite, so among the first
`|fs| + 1` candidate names at least one is unused, and the least such
counter is bounded by `|fs| + 2`. -/
theorem exists_free_candidate (fs : List PyPath) (target : PyPath)
    (k : Nat)
    (hbusy : ∀ j, 2 ≤ j → j < k → conflictCandidate target j ∈ fs) :
    k ≤ fs.length + 2 := by
  by_contra hgt
  push_neg at hgt
  set L := (List.range (fs.length + 1)).map fun j => conflictCandidate target (2 + j) with hL
  have hnodup : L.Nodup := by
    refine List.Nodup.map ?_ (List.nodup_range _)
    intro a b hab
    have := conflictCandidate_injective target hab
    omega
  have hsub : L.toFinset ⊆ fs.toFinset := by
    intro x hx
    rw [List.mem_toFinset] at hx ⊢
    rcases List.mem_map.1 hx with ⟨j, hj, rfl⟩
    rw [List.mem_range] at hj
    exact hbusy (2 + j) (by omega) (by omega)
  have hcard1 : L.toFinset.card = fs.length + 1 := by
    rw [List.toFinset_card_of_nodup hnodup]
    simp [hL]
  have hcard2 : L.toFinset.card ≤ fs.length :=
    le_trans (Finset.card_le_card hsub) (List.toFinset_card_le fs)
  omega

/-! ## Claim theorems -/

/-- C1: the claim states `build_target_path ("a/b.mp4", 7, 3, "Hello: World")`
returns `a/007-Hello World.mp4` with only the colon replaced by a space.  The
code instead returns `a/007-ello   orld.mp4`: the broken character class of
`_WINDOWS_INVALID_CHARS_RE` (doubled backslashes inside a raw string) also
replaces the uppercase letters `H` and `W`, and whitespace collapsing runs
*before* the substitution, so the introduced spaces persist. -/
theorem claim_C1_build_target_actual :
    build_target_path ⟨"a", "b.mp4"⟩ 7 3 "Hello: World" =
        ⟨"a", "007-ello   orld.mp4"⟩ ∧
      build_target_path ⟨"a", "b.mp4"⟩ 7 3 "Hello: World" ≠
        ⟨"a", "007-Hello World.mp4"⟩ := by
  constructor
  · decide
  · decide

/-- C2: the claim states the scanner orders `["v2.mp4","v10.mp4","v1.mp4"]`
as `v1, v2, v10` (numeric run comparison).  The code's split pattern
`r"(\\d+)"` matches a literal backslash followed by `d`s — never a digit run —
so every filename key is a single lowercased string and the order is plain
lexicographic: `v1, v10, v2`. -/
theorem claim_C2_scan_order_actual :
    scan_videos [⟨"d", "v2.mp4"⟩, ⟨"d", "v10.mp4"⟩, ⟨"d", "v1.mp4"⟩] =
        [⟨"d", "v1.mp4"⟩, ⟨"d", "v10.mp4"⟩, ⟨"d", "v2.mp4"⟩] ∧
      scan_videos [⟨"d", "v2.mp4"⟩, ⟨"d", "v10.mp4"⟩, ⟨"d", "v1.mp4"⟩] ≠
        [⟨"d", "v1.mp4"⟩, ⟨"d", "v2.mp4"⟩, ⟨"d", "v10.mp4"⟩] := by
  constructor
  · decide
  · decide

/-- C3: in a dry run the worker performs no rename and emits the same
title/new-name event as a live run on identical stage results — but its
terminal per-item status event carries `"完成"` ("done"), not the `"预览"`
("previewed") label used by the single-item dry-run handler, contradicting
the claim that the orchestrator reports "previewed". -/
theorem claim_C3_dry_run_status (row_path target : PyPath) (ocr_text title : String)
    (m : Nat) :
    (run_worker_item true row_path ocr_text title target m).2 = false ∧
    renamedValues (run_worker_item true row_path ocr_text title target m).1 = [] ∧
    titleValues (run_worker_item true row_path ocr_text title target m).1 =
      titleValues (run_worker_item false row_path ocr_text title target m).1 ∧
    (statusValues (run_worker_item true row_path ocr_text title target m).1).getLast?
      = some "完成" ∧
    (run_worker_item false row_path ocr_text title target m).2 = true ∧
    "完成" ≠ renameSelectedDryRunStatus := by
  refine ⟨rfl, ?_, ?_, ?_, rfl, by decide⟩ <;>
    simp [run_worker_item, renamedValues, titleValues, statusValues]

/-- C8: the DeepSeek post-processing takes the first non-empty line, strips
surrounding quotes/whitespace and a leading Chinese/English "title:" label:
`"\"标题：今天天气真好\""` yields `今天天气真好`, and a multi-line reply with
an English label (`"\n\n Title:  Hello \n rest"`) yields `Hello`. -/
theorem claim_C8_title_postprocess :
    deepseek_postprocess "\"标题：今天天气真好\"" = "今天天气真好" ∧
      deepseek_postprocess "\n\n Title:  Hello \n rest" = "Hello" := by
  constructor
  · decide
  · decide

/-- C9: with `save_keys_locally = false`, the record written by `save_config`
has empty credential fields, is unchanged when the in-memory credentials
change (the persisted output is independent of the secrets), and the
in-memory config itself is not modified. -/
theorem claim_C9_save_config_blanks (cfg : AppConfig) (k1 k2 k3 : String)
    (h : cfg.save_keys_locally = false) :
    (save_config cfg).1.baidu_api_key = "" ∧
    (save_config cfg).1.baidu_secret_key = "" ∧
    (save_config cfg).1.deepseek_api_key = "" ∧
    (save_config { cfg with baidu_api_key := k1, baidu_secret_key := k2, deepseek_api_key := k3 }).1 = (save_config cfg).1 ∧
    (save_config { cfg with baidu_api_key := k1, baidu_secret_key := k2, deepseek_api_key := k3 }).2 =
      { cfg with baidu_api_key := k1, baidu_secret_key := k2, deepseek_api_key := k3 } ∧
    (save_config cfg).2 = cfg := by
  refine ⟨?_, ?_, ?_, ?_, rfl, rfl⟩ <;> simp [save_config, h]

/-- C9 witness: a concrete config with secrets in memory and
`save_keys_locally = false` is persisted with blank credential fields. -/
theorem claim_C9_save_config_blanks_witness :
    (save_config { baidu_api_key := "AK-SECRET", baidu_secret_key := "SK-SECRET", deepseek_api_key := "DS-SECRET" : AppConfig }).1.baidu_api_key = "" :=
  (claim_C9_save_config_blanks
    { baidu_api_key := "AK-SECRET", baidu_secret_key := "SK-SECRET", deepseek_api_key := "DS-SECRET" }
    "AK-SECRET" "SK-SECRET" "DS-SECRET" rfl).1

/-- C10: when the target equals `ignore_path`, `pick_non_conflicting_path`
returns it unchanged without consulting the filesystem — the result is the
same for every filesystem state, including one in which the target exists. -/
theorem claim_C10_ignore_path (fs fs' : List PyPath) (target : PyPath) :
    pick_non_conflicting_path fs target (some target) = target ∧
    pick_non_conflicting_path fs target (some target) =
      pick_non_conflicting_path fs' target (some target) := by
  constructor <;> simp [pick_non_conflicting_path]

/-- C6: `pick_non_conflicting_path` (with no `ignore_path`) returns a
non-existing target unchanged (so it is idempotent), and for an existing
target returns the first candidate `stem_k` (suffix before the extension,
`k` counting up from 2) that does not exist. -/
theorem claim_C6_pick_non_conflicting (fs : List PyPath) (target : PyPath) (k : Nat)
    (hk2 : 2 ≤ k) (hfree : conflictCandidate target k ∉ fs)
    (hbusy : ∀ j, 2 ≤ j → j < k → conflictCandidate target j ∈ fs) :
    (target ∉ fs → pick_non_conflicting_path fs target = target) ∧
    (target ∈ fs → pick_non_conflicting_path fs target = conflictCandidate target k) ∧
    pick_non_conflicting_path fs (pick_non_conflicting_path fs target) =
      pick_non_conflicting_path fs target := by
  have hpick1 : ∀ p : PyPath, p ∉ fs → pick_non_conflicting_path fs p = p := by
    intro p hp
    simp [pick_non_conflicting_path, hp]
  have hbound : k ≤ fs.length + 2 := exists_free_candidate fs target k hbusy
  have hsearch : conflictSearch fs target (fs.length + 1) 2 = conflictCandidate target k :=
    conflictSearch_eq_of_least fs target (fs.length + 1) 2 k hk2 (by omega) hfree hbusy
  have hpick2 : target ∈ fs →
      pick_non_conflicting_path fs target = conflictCandidate target k := by
    intro hmem
    simp [pick_non_conflicting_path, hmem, hsearch]
  refine ⟨hpick1 target, hpick2, ?_⟩
  by_cases hmem : target ∈ fs
  · rw [hpick2 hmem]
    exact hpick1 _ hfree
  · rw [hpick1 target hmem, hpick1 target hmem]

/-- C6 witness: with `007-Hello World.mp4` existing, resolving that same
target yields `007-Hello World_2.mp4`. -/
theorem claim_C6_pick_non_conflicting_witness :
    pick_non_conflicting_path [⟨"a", "007-Hello World.mp4"⟩] ⟨"a", "007-Hello World.mp4"⟩ =
      ⟨"a", "007-Hello World_2.mp4"⟩ :=
  ((claim_C6_pick_non_conflicting [⟨"a", "007-Hello World.mp4"⟩]
      ⟨"a", "007-Hello World.mp4"⟩ 2 (by decide) (by decide)
      (fun _ h1 h2 => absurd (h1.trans_lt h2) (lt_irrefl 2))).2.1
    (by decide)).trans (by decide)

/-- C5: a `recognize` call finding a non-empty cached token with
`now < expires_at_epoch` reuses it and performs no token-issuance request;
otherwise (given credentials and a successful fetch with a non-empty token)
exactly one token is fetched before the OCR request, and the new expiry is
`now + max 0 (expires_in - 60)` — the `reported TTL − 60 s` guard band,
clamped to never be negative. -/
theorem claim_C5_token_cache (cache : TokenCache) (now : Int)
    (api_key secret_key : String) (fetch : TokenFetchOutcome) :
    (cache.token ≠ "" → now < cache.expires_at_epoch →
      get_access_token cache now api_key secret_key fetch = (.ok (cache.token, cache), 0) ∧
      recognizeCalls cache now api_key secret_key fetch = [.ocrRequest]) ∧
    (¬(cache.token ≠ "" ∧ now < cache.expires_at_epoch) →
      api_key ≠ "" → secret_key ≠ "" →
      ∀ tok ttl, fetch = .payload tok ttl → tok ≠ "" →
        get_access_token cache now api_key secret_key fetch =
          (.ok (tok, { token := tok, expires_at_epoch := now + max 0 (ttl - 60) }), 1) ∧
        now ≤ now + max 0 (ttl - 60) ∧
        recognizeCalls cache now api_key secret_key fetch =
          [.tokenIssuance, .ocrRequest]) := by
  constructor
  · intro h1 h2
    have hcond : cache.token ≠ "" ∧ now < cache.expires_at_epoch := ⟨h1, h2⟩
    have hget : get_access_token cache now api_key secret_key fetch =
        (.ok (cache.token, cache), 0) := by
      unfold get_access_token
      rw [if_pos hcond]
    refine ⟨hget, ?_⟩
    unfold recognizeCalls
    rw [hget]
    rfl
  · intro hcond hk1 hk2 tok ttl hfetch htok
    subst hfetch
    have hkeys : ¬(api_key = "" ∨ secret_key = "") := not_or.mpr ⟨hk1, hk2⟩
    have hget : get_access_token cache now api_key secret_key (.payload tok ttl) =
        (.ok (tok, { token := tok, expires_at_epoch := now + max 0 (ttl - 60) }), 1) := by
      unfold get_access_token
      rw [if_neg hcond, if_neg hkeys]
      simp [htok]
    refine ⟨hget, le_add_of_nonneg_right (le_max_left 0 _), ?_⟩
    unfold recognizeCalls
    rw [hget]
    rfl

/-- C5 witness: a valid cached token (`now = 50 < 100`) is reused with no
issuance request, and after expiry (`now = 100 ≥ 100`) one fetch with
`expires_in = 3600` installs expiry `100 + 3540`. -/
theorem claim_C5_token_cache_witness :
    recognizeCalls ⟨"tok", 100⟩ 50 "ak" "sk" (.payload "newtok" 3600) = [.ocrRequest] ∧
    get_access_token ⟨"tok", 100⟩ 100 "ak" "sk" (.payload "newtok" 3600) =
      (.ok ("newtok", { token := "newtok", expires_at_epoch := (100 : Int) + max 0 (3600 - 60) }), 1) :=
  ⟨((claim_C5_token_cache ⟨"tok", 100⟩ 50 "ak" "sk" (.payload "newtok" 3600)).1
      (by decide) (by decide)).2,
   ((claim_C5_token_cache ⟨"tok", 100⟩ 100 "ak" "sk" (.payload "newtok" 3600)).2
      (by decide) (by decide) (by decide) "newtok" 3600 rfl (by decide)).1⟩

/-- C7: when the primary ffmpeg attempt exits successfully but yields zero
bytes, exactly one fallback invocation is performed (its argument list seeks
to 0.1 s before end-of-stream with `-sseof -0.1`); the extractor returns the
fallback's bytes when it yields any (and they decode), and raises the
read-failure error exactly when the fallback also yields no bytes. -/
theorem claim_C7_empty_primary_fallback (video_path ffmpeg errp : String)
    (frame_number : Int) (hframe : ¬frame_number < 1)
    (fallback : RunOutcome) (decodes : List Nat → Bool) :
    (extract_frame_as_png_bytes video_path frame_number (some ffmpeg)
      (.completed 0 [] errp) fallback decodes).2 = 2 ∧
    (∀ errf, fallback = .completed 0 [] errf →
      (extract_frame_as_png_bytes video_path frame_number (some ffmpeg)
        (.completed 0 [] errp) fallback decodes).1 =
        .error ⟨"读取帧失败：" ++ video_path ++ " (frame=" ++
          pyIntStr frame_number ++ ")", none⟩) ∧
    (∀ out errf, fallback = .completed 0 out errf → out ≠ [] → decodes out = true →
      (extract_frame_as_png_bytes video_path frame_number (some ffmpeg)
        (.completed 0 [] errp) fallback decodes).1 = .ok out) ∧
    fallbackArgs ffmpeg video_path =
      [ffmpeg, "-hide_banner", "-loglevel", "error", "-nostdin"] ++
        ["-sseof", "-0.1"] ++
        ["-i", video_path, "-map", "0:v:0", "-frames:v", "1", "-f",
          "image2pipe", "-vcodec", "png", "pipe:1"] := by
  have hprimary : run_extract (.completed 0 [] errp) = .ok [] := by
    simp [run_extract]
  refine ⟨?_, ?_, ?_, rfl⟩
  · simp only [extract_frame_as_png_bytes, if_neg hframe, hprimary]
    cases hre : run_extract fallback with
    | error e => simp [hre]
    | ok b =>
      by_cases hb : b.isEmpty
      · simp [hre, hb]
      · simp [hre, hb]
  · intro errf hf
    subst hf
    have hfb : run_extract (.completed 0 [] errf) = .ok [] := by
      simp [run_extract]
    simp [extract_frame_as_png_bytes, if_neg hframe, hprimary, hfb]
  · intro out errf hf hne hdec
    subst hf
    have hfb : run_extract (.completed 0 out errf) = .ok out := by
      simp [run_extract]
    have hbe : out.isEmpty = false := by
      cases out with
      | nil => exact absurd rfl hne
      | cons c cs => rfl
    simp [extract_frame_as_png_bytes, if_neg hframe, hprimary, hfb, hbe, hdec]

/-- C7 witness: primary exits 0 with no bytes, fallback yields one byte that
decodes — two invocations, result is the fallback byte. -/
theorem claim_C7_empty_primary_fallback_witness :
    (extract_frame_as_png_bytes "v.mp4" 1 (some "ffmpeg")
      (.completed 0 [] "") (.completed 0 [137] "") (fun _ => true)).2 = 2 ∧
    (extract_frame_as_png_bytes "v.mp4" 1 (some "ffmpeg")
      (.completed 0 [] "") (.completed 0 [137] "") (fun _ => true)).1 = .ok [137] :=
  ⟨(claim_C7_empty_primary_fallback "v.mp4" "ffmpeg" "" 1 (by decide)
      (.completed 0 [137] "") (fun _ => true)).1,
   (claim_C7_empty_primary_fallback "v.mp4" "ffmpeg" "" 1 (by decide)
      (.completed 0 [137] "") (fun _ => true)).2.2.1 [137] "" rfl
      (by decide) rfl⟩

theorem retryAux_ok_spec {α : Type} (wrapT wrapJ : String → DomainError)
    (elseE : Option String → DomainError) (outcomes : Nat → AttemptResult α)
    (r : Nat) (g : Nat → String) (a : α) :
    ∀ fuel attempt lastE, attempt + fuel = r → 1 ≤ fuel →
      (∀ i, attempt ≤ i → i + 1 < r → outcomes i = .transient (g i)) →
      outcomes (r - 1) = .ok a →
      retryAux wrapT wrapJ elseE outcomes r attempt fuel lastE =
        (.ok a, (List.range' attempt (r - 1 - attempt)).map fun i => (1 : Int) * 2 ^ i) := by
  intro fuel
  induction fuel with
  | zero => intro attempt lastE h1 h2; omega
  | succ fuel ih =>
    intro attempt lastE hsum _ htrans hok
    by_cases hlast : attempt + 1 ≥ r
    · have ha : attempt = r - 1 := by omega
      have hoa : outcomes attempt = .ok a := by rw [ha]; exact hok
      have hz : r - 1 - attempt = 0 := by omega
      simp [retryAux, hoa, hz]
    · have hta : outcomes attempt = .transient (g attempt) :=
        htrans attempt le_rfl (by omega)
      have hrec := ih (attempt + 1) (some (g attempt)) (by omega) (by omega)
        (fun i hi1 hi2 => htrans i (by omega) hi2) hok
      have hsplit : r - 1 - attempt = (r - 1 - (attempt + 1)) + 1 := by omega
      simp only [retryAux, hta, ge_iff_le, if_neg hlast, hrec, hsplit,
        List.range'_succ, List.map_cons]

theorem retryAux_allfail_spec {α : Type} (wrapT wrapJ : String → DomainError)
    (elseE : Option String → DomainError) (outcomes : Nat → AttemptResult α)
    (r : Nat) (g : Nat → String) :
    ∀ fuel attempt lastE, attempt + fuel = r → 1 ≤ fuel →
      (∀ i, attempt ≤ i → i < r → outcomes i = .transient (g i)) →
      retryAux (α := α) wrapT wrapJ elseE outcomes r attempt fuel lastE =
        (.error (wrapT (g (r - 1))),
          (List.range' attempt (r - 1 - attempt)).map fun i => (1 : Int) * 2 ^ i) := by
  intro fuel
  induction fuel with
  | zero => intro attempt lastE h1 h2; omega
  | succ fuel ih =>
    intro attempt lastE hsum _ htrans
    have hta : outcomes attempt = .transient (g attempt) :=
      htrans attempt le_rfl (by omega)
    by_cases hlast : attempt + 1 ≥ r
    · have ha : attempt = r - 1 := by omega
      have hz : r - 1 - attempt = 0 := by omega
      simp only [retryAux, hta, ge_iff_le, if_pos hlast, hz]
      rw [ha]
      rfl
    · have hrec := ih (attempt + 1) (some (g attempt)) (by omega) (by omega)
        (fun i hi1 hi2 => htrans i (by omega) hi2)
      have hsplit : r - 1 - attempt = (r - 1 - (attempt + 1)) + 1 := by omega
      simp only [retryAux, hta, ge_iff_le, if_neg hlast, hrec, hsplit,
        List.range'_succ, List.map_cons]

/-- C4: for every `retries = r ≥ 1` — if the HTTP call fails transiently on
the first `r − 1` attempts and succeeds on attempt `r`, the loop returns the
result without raising; if all `r` attempts fail transiently, it raises the
domain error wrapping the last cause; in both cases the sleeps between
consecutive attempts are `1·2⁰, 1·2¹, …` seconds (starting at 1 s, doubling
each attempt).  The Baidu and DeepSeek transient wrappers both attach the
underlying cause (`raise … from exc`). -/
theorem claim_C4_retry_backoff {α : Type} (wrapT wrapJ : String → DomainError)
    (elseE : Option String → DomainError) (outcomes : Nat → AttemptResult α)
    (r : Nat) (hr : 1 ≤ r) (g : Nat → String) (a : α) :
    ((∀ i, i + 1 < r → outcomes i = .transient (g i)) → outcomes (r - 1) = .ok a →
      retryLoop wrapT wrapJ elseE outcomes r = (.ok a, backoffSleeps (r - 1))) ∧
    ((∀ i, i < r → outcomes i = .transient (g i)) →
      retryLoop wrapT wrapJ elseE outcomes r =
        (.error (wrapT (g (r - 1))), backoffSleeps (r - 1))) ∧
    (∀ e, (baiduTokenTransient e).cause = some e ∧
      (baiduOcrTransient e).cause = some e ∧ (deepseekTransient e).cause = some e) := by
  refine ⟨?_, ?_, fun e => ⟨rfl, rfl, rfl⟩⟩
  · intro htrans hok
    unfold retryLoop backoffSleeps
    rw [retryAux_ok_spec wrapT wrapJ elseE outcomes r g a r 0 none (by omega) hr
      (fun i _ hi => htrans i hi) hok, List.range_eq_range']
    rfl
  · intro htrans
    unfold retryLoop backoffSleeps
    rw [retryAux_allfail_spec wrapT wrapJ elseE outcomes r g r 0 none (by omega) hr
      (fun i _ hi => htrans i hi), List.range_eq_range']
    rfl

/-- C4 witness: with `retries = 2`, one transient failure then success
returns the payload after a single 1 s sleep; two transient failures raise
the DeepSeek error wrapping the last cause after the same single sleep. -/
theorem claim_C4_retry_backoff_witness :
    retryLoop baiduTokenTransient baiduTokenBadJson (fun _ => ⟨"else", none⟩)
      (fun i => if i = 0 then AttemptResult.transient "t0" else .ok (42 : Nat)) 2 =
      (.ok 42, backoffSleeps 1) ∧
    retryLoop deepseekTransient deepseekBadJson (fun _ => ⟨"else", none⟩)
      (fun _ => AttemptResult.transient (α := Nat) "boom") 2 =
      (.error (deepseekTransient "boom"), backoffSleeps 1) :=
  ⟨(claim_C4_retry_backoff baiduTokenTransient baiduTokenBadJson (fun _ => ⟨"else", none⟩)
      (fun i => if i = 0 then AttemptResult.transient "t0" else .ok (42 : Nat)) 2
      (by decide) (fun _ => "t0") 42).1
      (fun i hi => by
        have h0 : i = 0 := by omega
        subst h0
        rfl)
      rfl,
   (claim_C4_retry_backoff deepseekTransient deepseekBadJson (fun _ => ⟨"else", none⟩)
      (fun _ => AttemptResult.transient (α := Nat) "boom") 2
      (by decide) (fun _ => "boom") 0).2.1
      (fun _ _ => rfl)⟩
